import Mathlib

/-!
Shallow embedding of the pattern-detection and alerting engine in
`supabase/functions/analyze-patterns/index.ts`.

JavaScript strings are modelled as Lean `String` (every character that the
engine inspects in the first 50 positions of a message is in the ASCII range,
so UTF-16 code-unit indexing and character indexing agree on everything the
dedup key can see).  The `Date.now()` clock and the `new Date(s).getTime()`
parser are passed in as explicit parameters (`now`, `getTime`); the possibly
`null` query results are modelled as `Option` of a list.
-/

/-- Row of the `check_ins` table as selected by the engine. -/
structure CheckIn where
  id : String
  mood : String
  journal : Option String
  created_at : String
  deriving Repr, DecidableEq

/-- Row of the `chat_messages` table as selected by the engine. -/
structure ChatMessage where
  id : String
  content : String
  role : String
  created_at : String
  deriving Repr, DecidableEq

/-- Candidate alert produced by a detector (interface `PatternAlert`). -/
structure PatternAlert where
  alert_type : String
  message : String
  severity : String
  suggested_action : Option String := none
  deriving Repr, DecidableEq

/-- Row written to the `alerts` table (the `user_id` column is constant for
the whole invocation and is omitted). -/
structure AlertRow where
  alert_type : String
  message : String
  severity : String
  deriving Repr, DecidableEq

/-- The calendar-day portion of an ISO timestamp:
JS `checkIn.created_at.split('T')[0]`, i.e. everything before the first
`T` (the whole string when no `T` occurs). -/
def dayOf (ts : String) : String :=
  String.mk (ts.data.takeWhile (fun ch => ch != 'T'))

/-- JS `s.toLowerCase()` on the engine's (ASCII) vocabulary: lowercase each
character. -/
def jsToLower (s : String) : String :=
  String.mk (s.data.map Char.toLower)

/-- Lexicographic comparison of character lists; `localeCompare` ordering
on the engine's ASCII date strings. -/
def charListLe : List Char → List Char → Bool
  | [], _ => true
  | _ :: _, [] => false
  | x :: xs, y :: ys => if x = y then charListLe xs ys else decide (x < y)

/-- JS `hay.includes(needle)`: substring containment. -/
def strIncludes (hay needle : String) : Bool :=
  decide (needle.data <:+: hay.data)

/-- JS `s.substring(0, n)` (all characters inspected are in the BMP, where
code-unit and character counting agree). -/
def jsSubstring (s : String) (n : Nat) : String :=
  String.mk (s.data.take n)

/-- Dedup key of a candidate alert:
JS `` `${alert.alert_type}:${alert.message.substring(0, 50)}` ``. -/
def alertKey (a : PatternAlert) : String :=
  a.alert_type ++ ":" ++ jsSubstring a.message 50

/-- Keys of the already-persisted alerts (`alert_type`, `message` pairs):
JS `new Set(existingAlerts?.map(a => ...))`, modelled as the list of keys
(membership is all the engine uses the `Set` for). -/
def existingAlertTypes (existingAlerts : List (String × String)) : List String :=
  existingAlerts.map (fun a => a.1 ++ ":" ++ jsSubstring a.2 50)

/-! ### Daily aggregation (lines 112-130)

`checkInsByDay` models the JS `Map<string, CheckIn[]>` as an association
list in key-insertion order: a check-in whose day is already a key is pushed
onto that day's array, otherwise a new key is appended at the end, exactly
as a JS `Map` iterates. -/

/-- A single step of filling the `checkInsByDay` map. -/
def insertByDay (m : List (String × List CheckIn)) (day : String) (c : CheckIn) :
    List (String × List CheckIn) :=
  match m with
  | [] => [(day, [c])]
  | (d, l) :: rest =>
    if d = day then (d, l ++ [c]) :: rest else (d, l) :: insertByDay rest day c

/-- JS `checkIns.forEach(...)` building the by-day map. -/
def checkInsByDay (checkIns : List CheckIn) : List (String × List CheckIn) :=
  checkIns.foldl (fun m c => insertByDay m (dayOf c.created_at) c) []

/-- The `(date, mood)` list before sorting: for each day, the mood of
`dayCheckIns[0]` (the first check-in pushed for that day). -/
def dailyMoodsUnsorted (checkIns : List CheckIn) : List (String × String) :=
  (checkInsByDay checkIns).map (fun p => (p.1, ((p.2.head?.map CheckIn.mood).getD "")))

/-- JS `dailyMoods.sort((a, b) => b.date.localeCompare(a.date))`: sort
descending by date string (ISO date strings compare lexicographically; the
dates are pairwise distinct and the comparator is a total order on them,
so every comparison sort returns the same list). -/
def dailyMoods (checkIns : List CheckIn) : List (String × String) :=
  (dailyMoodsUnsorted checkIns).insertionSort
    (fun a b => charListLe b.1.data a.1.data = true)

/-! ### Mood pattern detectors (lines 132-184) -/

/-- The low-mood vocabulary (line 133). -/
def lowMoods : List String :=
  ["sad", "anxious", "stressed", "overwhelmed"]

/-- Whether a daily `(date, mood)` entry counts as a low-mood day:
JS `lowMoods.includes(mood.toLowerCase())`. -/
def isLowMood (p : String × String) : Bool :=
  lowMoods.contains (jsToLower p.2)

/-- The `for ... break` loop of lines 136-142: the length of the longest
prefix of low-mood days of the (descending-sorted) daily mood list. -/
def consecutiveLowDays (dm : List (String × String)) : Nat :=
  (dm.takeWhile isLowMood).length

/-- Message of the `wellness_check` alert (line 147), with the streak
length interpolated. -/
def wellnessCheckMessage (n : Nat) : String :=
  "We\'ve noticed you\'ve been feeling a bit down for " ++ toString n ++
    " days in a row. That\'s completely okay – everyone goes through tough patches. Taking small steps like a short walk, talking to a friend, or doing something you enjoy might help lift your spirits."

/-- Pattern 1 (lines 144-151): continuous low mood. -/
def lowMoodAlerts (dm : List (String × String)) : List PatternAlert :=
  let consecutive := consecutiveLowDays dm
  if 3 ≤ consecutive then
    [{ alert_type := "wellness_check",
       message := wellnessCheckMessage consecutive,
       severity := if 5 ≤ consecutive then "medium" else "low",
       suggested_action := some "Consider journaling about what\'s on your mind, or reaching out to someone you trust." }]
  else []

/-- The stress-associated mood vocabulary (line 154). -/
def stressMoods : List String :=
  ["stressed", "anxious", "overwhelmed", "angry"]

/-- JS `dailyMoods.slice(0, 5).filter(...).length` (line 155). -/
def recentStressCount (dm : List (String × String)) : Nat :=
  ((dm.take 5).filter (fun m => stressMoods.contains (jsToLower m.2))).length

/-- JS `dailyMoods.slice(5, 10).filter(...).length` (line 156). -/
def olderStressCount (dm : List (String × String)) : Nat :=
  (((dm.drop 5).take 5).filter (fun m => stressMoods.contains (jsToLower m.2))).length

/-- Pattern 2 (lines 158-165): stress spike. -/
def stressAlerts (dm : List (String × String)) : List PatternAlert :=
  if 3 ≤ recentStressCount dm ∧ olderStressCount dm + 1 < recentStressCount dm then
    [{ alert_type := "stress_pattern",
       message := "It looks like stress levels have been higher than usual lately. This is your body\'s way of telling you it needs some extra care. Deep breathing, taking breaks, or stepping away from stressors when possible can make a real difference.",
       severity := "medium",
       suggested_action := some "Try a 5-minute breathing exercise or a short meditation session." }]
  else []

/-- The adjacent-change count of lines 169-174: comparisons of
`dailyMoods[i].mood` with `dailyMoods[i-1].mood` for `1 ≤ i < min 7 length`,
i.e. the number of unequal adjacent mood pairs among the first 7 entries. -/
def moodChanges (dm : List (String × String)) : Nat :=
  ((dm.take 7).zip (dm.take 7).tail).countP (fun p => decide (p.1.2 ≠ p.2.2))

/-- Pattern 3 (lines 168-183): mood volatility. -/
def volatilityAlerts (dm : List (String × String)) : List PatternAlert :=
  if 5 ≤ dm.length ∧ 5 ≤ moodChanges dm then
    [{ alert_type := "mood_variability",
       message := "Your moods seem to be changing quite a bit lately. This can sometimes happen during stressful periods or life transitions. Keeping a regular routine with consistent sleep and meal times might help bring some stability.",
       severity := "low",
       suggested_action := some "Consider establishing a calming evening routine." }]
  else []

/-- The whole mood-pattern block (lines 111-184), guarded by
`checkIns.length >= 3`. -/
def moodPatternAlerts (checkIns : List CheckIn) : List PatternAlert :=
  if 3 ≤ checkIns.length then
    let dm := dailyMoods checkIns
    lowMoodAlerts dm ++ stressAlerts dm ++ volatilityAlerts dm
  else []

/-! ### Symptom pattern detection (lines 186-248) -/

/-- Keyword list of the `headache` category (line 189). -/
def headacheKeywords : List String :=
  ["headache", "migraine", "head pain", "head hurts"]

/-- Keyword list of the `fatigue` category (line 190). -/
def fatigueKeywords : List String :=
  ["tired", "fatigue", "exhausted", "no energy", "drained", "worn out"]

/-- Keyword list of the `sleep` category (line 191). -/
def sleepKeywords : List String :=
  ["sleep", "insomnia", "can\'t sleep", "trouble sleeping", "waking up", "sleepless"]

/-- Keyword list of the `digestive` category (line 192); counted by the
source but never used to fire an alert. -/
def digestiveKeywords : List String :=
  ["stomach", "nausea", "digestion", "bloating", "appetite"]

/-- Keyword list of the `pain` category (line 193); counted by the source
but never used to fire an alert. -/
def painKeywords : List String :=
  ["pain", "ache", "sore", "hurts", "discomfort"]

/-- Keyword list of the `anxiety` category (line 194). -/
def anxietyKeywords : List String :=
  ["anxious", "anxiety", "worried", "panic", "nervous", "racing thoughts"]

/-- Whether a message hits a category: some keyword is a substring of the
lowercased content (lines 198-202). -/
def messageHits (keywords : List String) (msg : ChatMessage) : Bool :=
  keywords.any (fun kw => strIncludes (jsToLower msg.content) kw)

/-- The category's `dates` set after the loop of lines 197-207: the
distinct calendar days of the messages that hit the category.  Its length
is the JS `category.dates.size`. -/
def categoryDates (keywords : List String) (messages : List ChatMessage) : List String :=
  ((messages.filter (messageHits keywords)).map (fun msg => dayOf msg.created_at)).dedup

/-- The `recurring_symptom` alert (lines 210-217). -/
def recurringSymptomAlert : PatternAlert :=
  { alert_type := "recurring_symptom",
    message := "You\'ve mentioned headaches on several different days. While occasional headaches are common, recurring ones might be worth discussing with a healthcare provider to rule out any underlying causes and find relief.",
    severity := "medium",
    suggested_action := some "Consider keeping a headache diary and consulting a healthcare professional." }

/-- The `sleep_pattern` alert (lines 220-227). -/
def sleepPatternAlert : PatternAlert :=
  { alert_type := "sleep_pattern",
    message := "Sleep seems to be on your mind lately. Good rest is so important for how we feel. Small changes like limiting screen time before bed, keeping a consistent schedule, or creating a relaxing bedtime routine might help improve your sleep quality.",
    severity := "low",
    suggested_action := some "Try reducing caffeine after noon and dimming lights an hour before bed." }

/-- The `energy_pattern` alert (lines 230-237). -/
def energyPatternAlert : PatternAlert :=
  { alert_type := "energy_pattern",
    message := "Feeling tired often can be frustrating. While there are many everyday causes like sleep, diet, or stress, persistent fatigue is something a doctor can help investigate. You deserve to feel your best!",
    severity := "medium",
    suggested_action := some "Consider consulting a healthcare professional if fatigue persists." }

/-- The `mental_wellness` alert (lines 240-247). -/
def mentalWellnessAlert : PatternAlert :=
  { alert_type := "mental_wellness",
    message := "Managing anxious feelings can be challenging, but you\'re not alone. Many people experience this, and there are wonderful tools and support available. Breathing exercises, gentle movement, and talking to someone you trust can all help.",
    severity := "medium",
    suggested_action := some "Consider speaking with a mental wellness professional for personalized support." }

/-- The whole symptom-pattern block (lines 187-248), guarded by
`messages.length > 0`; each category fires independently at its fixed
distinct-day threshold. -/
def symptomPatternAlerts (messages : List ChatMessage) : List PatternAlert :=
  if 0 < messages.length then
    (if 3 ≤ (categoryDates headacheKeywords messages).length then [recurringSymptomAlert] else []) ++
    (if 3 ≤ (categoryDates sleepKeywords messages).length then [sleepPatternAlert] else []) ++
    (if 4 ≤ (categoryDates fatigueKeywords messages).length then [energyPatternAlert] else []) ++
    (if 3 ≤ (categoryDates anxietyKeywords messages).length then [mentalWellnessAlert] else [])
  else []

/-! ### Lifestyle indicator detection (lines 250-291) -/

/-- Keyword list of the `poor_diet` indicator (line 258); counted by the
source but never used to fire an alert. -/
def poorDietKeywords : List String :=
  ["junk food", "skipped meals", "didn\'t eat", "fast food", "unhealthy", "no appetite"]

/-- Keyword list of the `lack_of_exercise` indicator (line 259); counted by
the source but never used to fire an alert. -/
def lackOfExerciseKeywords : List String :=
  ["no exercise", "sedentary", "didn\'t move", "no activity", "sat all day"]

/-- Keyword list of the `social_isolation` indicator (line 260). -/
def socialIsolationKeywords : List String :=
  ["alone", "lonely", "isolated", "no one", "by myself", "didn\'t see anyone"]

/-- Keyword list of the `work_stress` indicator (line 261). -/
def workStressKeywords : List String :=
  ["overwork", "deadline", "too much work", "burnout", "exhausted from work"]

/-- JS `checkIns.filter(c => c.journal).map(c => c.journal!.toLowerCase())`
(lines 253-255); JS truthiness also drops an empty journal string. -/
def journalEntries (checkIns : List CheckIn) : List String :=
  (checkIns.filter (fun c => c.journal.getD "" != "")).map
    (fun c => jsToLower (c.journal.getD ""))

/-- The `patternCounts[pattern]` counter (lines 264-272): incremented once
per journal entry in which any keyword of the category occurs. -/
def patternCount (keywords : List String) (entries : List String) : Nat :=
  (entries.filter (fun entry => keywords.any (fun kw => strIncludes entry kw))).length

/-- The `social_wellness` alert (lines 274-281). -/
def socialWellnessAlert : PatternAlert :=
  { alert_type := "social_wellness",
    message := "Spending time alone can be restorative, but we\'ve noticed you\'ve mentioned feeling isolated a few times. Human connection is important for our wellbeing. Even a quick call with a friend or joining an online community can make a difference.",
    severity := "low",
    suggested_action := some "Try reaching out to a friend or family member today." }

/-- The `work_life_balance` alert (lines 283-290). -/
def workLifeBalanceAlert : PatternAlert :=
  { alert_type := "work_life_balance",
    message := "Work has been intense lately. Remember, taking breaks isn\'t just okay – it\'s necessary for doing your best work. Your wellbeing matters more than any deadline.",
    severity := "medium",
    suggested_action := some "Consider setting boundaries around work hours and taking regular breaks." }

/-- The whole lifestyle block (lines 251-291), guarded by
`checkIns.length >= 5`. -/
def lifestyleAlerts (checkIns : List CheckIn) : List PatternAlert :=
  if 5 ≤ checkIns.length then
    let entries := journalEntries checkIns
    (if 3 ≤ patternCount socialIsolationKeywords entries then [socialWellnessAlert] else []) ++
    (if 3 ≤ patternCount workStressKeywords entries then [workLifeBalanceAlert] else [])
  else []

/-! ### Inactivity detection (lines 293-307) -/

/-- Whole-day gap since the newest check-in (lines 295-297): JS
`Math.floor((Date.now() - getTime(newest)) / 86400000)`, with the `999`
sentinel when no check-ins exist.  `Math.floor` on a real quotient is
floor division, `Int.fdiv`. -/
def daysSinceLastCheckIn (getTime : String → Int) (now : Int)
    (checkIns : List CheckIn) : Int :=
  match checkIns with
  | [] => 999
  | c :: _ => Int.fdiv (now - getTime c.created_at) 86400000

/-- Message of the `check_in_reminder` alert (line 302), with the literal
day count interpolated. -/
def checkInReminderMessage (days : Int) : String :=
  "It\'s been " ++ toString days ++
    " days since your last check-in. Regular check-ins help us understand how you\'re doing and provide better support. We\'d love to hear from you when you have a moment!"

/-- The inactivity block (lines 294-307). -/
def inactivityAlerts (getTime : String → Int) (now : Int)
    (checkIns : List CheckIn) : List PatternAlert :=
  let days := daysSinceLastCheckIn getTime now checkIns
  if 5 ≤ days ∧ days < 14 then
    [{ alert_type := "check_in_reminder",
       message := checkInReminderMessage days,
       severity := "low",
       suggested_action := some "Take a moment to log how you\'re feeling today." }]
  else []

/-! ### Candidate collection, dedup, emission, summary (lines 108-342) -/

/-- All candidate alerts of one invocation, in push order.  `none` models a
`null` query result (every block is guarded by the collection's
truthiness). -/
def analyzeAlerts (getTime : String → Int) (now : Int)
    (checkIns : Option (List CheckIn)) (messages : Option (List ChatMessage)) :
    List PatternAlert :=
  (match checkIns with | some cs => moodPatternAlerts cs | none => [])
    ++ (match messages with | some ms => symptomPatternAlerts ms | none => [])
    ++ (match checkIns with | some cs => lifestyleAlerts cs | none => [])
    ++ (match checkIns with | some cs => inactivityAlerts getTime now cs | none => [])

/-- The dedup filter (lines 310-313). -/
def newAlerts (alerts : List PatternAlert) (existingKeys : List String) :
    List PatternAlert :=
  alerts.filter (fun alert => !(existingKeys.contains (alertKey alert)))

/-- The message actually persisted (lines 318-320): the suggested action,
when present, is appended after a fixed separator. -/
def persistMessage (alert : PatternAlert) : String :=
  match alert.suggested_action with
  | some s => alert.message ++ "\n\n💡 Suggestion: " ++ s
  | none => alert.message

/-- The rows handed to `insert` (lines 316-323).  The source skips the
insert call when the list is empty, which writes the same set of rows. -/
def alertsToInsert (alerts : List PatternAlert) : List AlertRow :=
  alerts.map (fun alert =>
    { alert_type := alert.alert_type,
      message := persistMessage alert,
      severity := alert.severity })

/-- The `patterns` object of the response (lines 333-337). -/
structure PatternSummary where
  moodTrend : String
  symptomPatterns : String
  lifestyleIndicators : String
  deriving Repr, DecidableEq

/-- JS `cond ? 'analyzed' : 'insufficient_data'`. -/
def statusWhen (b : Bool) : String :=
  if b then "analyzed" else "insufficient_data"

/-- The summary statuses exactly as computed on lines 334-336. -/
def patternsSummary (checkIns : Option (List CheckIn))
    (messages : Option (List ChatMessage)) : PatternSummary :=
  { moodTrend := statusWhen (match checkIns with
      | some cs => decide (0 < cs.length) | none => false),
    symptomPatterns := statusWhen (match messages with
      | some ms => decide (0 < ms.length) | none => false),
    lifestyleIndicators := statusWhen (match checkIns with
      | some cs => decide (5 ≤ cs.length) | none => false) }

/-- Result row of the `check_rate_limit` RPC; the engine only reads its
`allowed` field. -/
structure RateLimitResult where
  allowed : Bool
  deriving Repr, DecidableEq

/-- Outcome of the `check_rate_limit` RPC call: an error, or data that may
itself be `null`. -/
inductive RateLimitOutcome where
  | rpcError
  | ok (result : Option RateLimitResult)
  deriving Repr, DecidableEq

/-- Lines 63-72: the check throttles the request exactly when it did not
error and returned a row with `allowed` false. -/
def rateLimitExceeded : RateLimitOutcome → Bool
  | .rpcError => false
  | .ok none => false
  | .ok (some r) => !r.allowed

/-- The response body: the 429 rate-limit response, or the success summary. -/
inductive ResponseStatus where
  | throttled
  | completed (alertsGenerated : Nat) (patterns : PatternSummary)
  deriving Repr, DecidableEq

/-- The observable outcome of one invocation: the response and the rows
inserted into `alerts`. -/
structure InvocationResult where
  response : ResponseStatus
  inserted : List AlertRow
  deriving Repr, DecidableEq

/-- The whole handler after loading (lines 56-342): rate-limit gate, then
analysis, dedup, emission and summary. -/
def handleRequest (rl : RateLimitOutcome) (getTime : String → Int) (now : Int)
    (checkIns : Option (List CheckIn)) (messages : Option (List ChatMessage))
    (existingAlerts : List (String × String)) : InvocationResult :=
  if rateLimitExceeded rl then
    { response := .throttled, inserted := [] }
  else
    let fresh := newAlerts (analyzeAlerts getTime now checkIns messages)
      (existingAlertTypes existingAlerts)
    { response := .completed fresh.length (patternsSummary checkIns messages),
      inserted := alertsToInsert fresh }

/-- The ten alert type tags the engine can emit, in detector order. -/
def analyzerAlertTypes : List String :=
  ["wellness_check", "stress_pattern", "mood_variability", "recurring_symptom",
   "sleep_pattern", "energy_pattern", "mental_wellness", "social_wellness",
   "work_life_balance", "check_in_reminder"]

/-- Lookup in the association-list model of the JS `Map`: the value stored
at the first pair whose key matches (proof-side helper). -/
def lookupDay : List (String × List CheckIn) → String → List CheckIn
  | [], _ => []
  | p :: rest, d => if p.1 = d then p.2 else lookupDay rest d

/-! ## Theorems -/

/-- Unfolding of the substring-containment test. -/
theorem strIncludes_iff (hay needle : String) :
    strIncludes hay needle = true ↔ needle.data <:+: hay.data := by
  simp [strIncludes]

/-- The middle factor of a three-part concatenation is a substring. -/
theorem strIncludes_concat (a b c : String) :
    strIncludes (a ++ b ++ c) b = true := by
  rw [strIncludes_iff, String.data_append, String.data_append]
  exact List.infix_append a.data b.data c.data

/-- C7: the inactivity detector fires a low-severity `check_in_reminder`
alert exactly when the whole-day gap since the newest check-in is at least
5 and below 14 (the gap being the 999 sentinel when no check-ins exist, so
it never fires then), and the alert message contains the literal day
count. -/
theorem inactivity_band (getTime : String → Int) (now : Int)
    (checkIns : List CheckIn) :
    (inactivityAlerts getTime now checkIns ≠ [] ↔
      checkIns ≠ [] ∧ 5 ≤ daysSinceLastCheckIn getTime now checkIns ∧
        daysSinceLastCheckIn getTime now checkIns < 14) ∧
    ∀ a ∈ inactivityAlerts getTime now checkIns,
      a.alert_type = "check_in_reminder" ∧ a.severity = "low" ∧
        strIncludes a.message
          (toString (daysSinceLastCheckIn getTime now checkIns)) = true := by
  have hlet : inactivityAlerts getTime now checkIns =
      (if 5 ≤ daysSinceLastCheckIn getTime now checkIns ∧
            daysSinceLastCheckIn getTime now checkIns < 14 then
        [{ alert_type := "check_in_reminder",
           message := checkInReminderMessage (daysSinceLastCheckIn getTime now checkIns),
           severity := "low",
           suggested_action := some "Take a moment to log how you\'re feeling today." }]
      else []) := rfl
  rw [hlet]
  split
  · rename_i hband
    constructor
    · simp only [ne_eq, List.cons_ne_nil, not_false_eq_true, true_iff]
      refine ⟨?_, hband.1, hband.2⟩
      intro hnil
      rw [hnil] at hband
      simp [daysSinceLastCheckIn] at hband
    · intro a ha
      simp only [List.mem_singleton] at ha
      subst ha
      refine ⟨rfl, rfl, ?_⟩
      unfold checkInReminderMessage
      exact strIncludes_concat _ _ _
  · rename_i hband
    constructor
    · simp only [ne_eq, not_true_eq_false, false_iff, not_and]
      intro _ h5 h14
      exact hband ⟨h5, h14⟩
    · intro a ha
      simp at ha

/-- Witness for C7: with a 6-day gap the reminder fires and its message
contains "6"; with a 3-day or a 20-day gap nothing fires. -/
theorem inactivity_band_witness :
    (inactivityAlerts (fun _ => 0) 518400000
        [{ id := "1", mood := "good", journal := none,
           created_at := "2026-10-01T00:00:00Z" }] ≠ []) ∧
    (∀ a ∈ inactivityAlerts (fun _ => 0) 518400000
        [{ id := "1", mood := "good", journal := none,
           created_at := "2026-10-01T00:00:00Z" }],
      strIncludes a.message "6" = true) ∧
    inactivityAlerts (fun _ => 0) 259200000
        [{ id := "1", mood := "good", journal := none,
           created_at := "2026-10-01T00:00:00Z" }] = [] ∧
    inactivityAlerts (fun _ => 0) 1728000000
        [{ id := "1", mood := "good", journal := none,
           created_at := "2026-10-01T00:00:00Z" }] = [] := by
  have h6 := inactivity_band (fun _ => 0) 518400000
    [{ id := "1", mood := "good", journal := none,
       created_at := "2026-10-01T00:00:00Z" }]
  have h3 := inactivity_band (fun _ => 0) 259200000
    [{ id := "1", mood := "good", journal := none,
       created_at := "2026-10-01T00:00:00Z" }]
  have h20 := inactivity_band (fun _ => 0) 1728000000
    [{ id := "1", mood := "good", journal := none,
       created_at := "2026-10-01T00:00:00Z" }]
  refine ⟨h6.1.mpr (by refine ⟨by simp, by decide, by decide⟩), ?_, ?_, ?_⟩
  · intro a ha
    have := (h6.2 a ha).2.2
    simpa using this
  · by_contra hne
    have := h3.1.mp hne
    revert this
    decide
  · by_contra hne
    have := h20.1.mp hne
    revert this
    decide

/-- C8: the invocation is throttled, persisting nothing, exactly when the
rate-limit check returned (without erroring) a row with `allowed = false`;
when the check itself errors the invocation proceeds exactly as if it had
been allowed. -/
theorem rate_limit_gate (rl : RateLimitOutcome) (getTime : String → Int)
    (now : Int) (checkIns : Option (List CheckIn))
    (messages : Option (List ChatMessage))
    (existingAlerts : List (String × String)) :
    ((handleRequest rl getTime now checkIns messages existingAlerts).response =
        .throttled ↔ rl = .ok (some { allowed := false })) ∧
    ((handleRequest rl getTime now checkIns messages existingAlerts).response =
        .throttled →
      (handleRequest rl getTime now checkIns messages existingAlerts).inserted = []) ∧
    handleRequest .rpcError getTime now checkIns messages existingAlerts =
      handleRequest (.ok (some { allowed := true })) getTime now checkIns messages
        existingAlerts := by
  refine ⟨?_, ?_, rfl⟩
  · cases rl with
    | rpcError => simp [handleRequest, rateLimitExceeded]
    | ok r =>
      cases r with
      | none => simp [handleRequest, rateLimitExceeded]
      | some r =>
        obtain ⟨b⟩ := r
        cases b <;> simp [handleRequest, rateLimitExceeded]
  · intro h
    cases rl with
    | rpcError => simp [handleRequest, rateLimitExceeded] at h
    | ok r =>
      cases r with
      | none => simp [handleRequest, rateLimitExceeded] at h
      | some r =>
        obtain ⟨b⟩ := r
        cases b
        · rfl
        · simp [handleRequest, rateLimitExceeded] at h

/-- Witness for C8: a not-allowed rate-limit row yields the throttled
response with nothing persisted. -/
theorem rate_limit_gate_witness :
    (handleRequest (.ok (some { allowed := false })) (fun _ => 0) 0 none none
        []).response = .throttled ∧
    (handleRequest (.ok (some { allowed := false })) (fun _ => 0) 0 none none
        []).inserted = [] := by
  have h := rate_limit_gate (.ok (some { allowed := false })) (fun _ => 0) 0
    none none []
  exact ⟨h.1.mpr rfl, h.2.1 (h.1.mpr rfl)⟩

/-- `takeWhile` runs through a prefix on which the predicate holds. -/
theorem takeWhile_append_of_all {α : Type} (p : α → Bool) (pre rest : List α)
    (h : ∀ x ∈ pre, p x = true) :
    (pre ++ rest).takeWhile p = pre ++ rest.takeWhile p := by
  induction pre with
  | nil => simp
  | cons a l ih =>
    simp only [List.cons_append, List.takeWhile_cons, h a (List.mem_cons_self a l)]
    simp [ih (fun x hx => h x (List.mem_cons_of_mem a hx))]

/-- C5: on a daily-mood sequence whose first `K` entries are low-mood
(case-insensitively) and which then ends or continues with a non-low entry,
the consecutive-low-mood streak is exactly `K`; the detector fires exactly
when `K ≥ 3`, with severity "medium" when `K ≥ 5` and "low" otherwise, and
the alert message contains the exact streak length. -/
theorem consecutive_low_mood_streak (pre rest : List (String × String))
    (hpre : ∀ p ∈ pre, isLowMood p = true)
    (hrest : rest = [] ∨ ∃ q tl, rest = q :: tl ∧ isLowMood q = false) :
    consecutiveLowDays (pre ++ rest) = pre.length ∧
    (lowMoodAlerts (pre ++ rest) ≠ [] ↔ 3 ≤ pre.length) ∧
    ∀ a ∈ lowMoodAlerts (pre ++ rest),
      a.alert_type = "wellness_check" ∧
      a.severity = (if 5 ≤ pre.length then "medium" else "low") ∧
      strIncludes a.message (toString pre.length) = true := by
  have hstreak : consecutiveLowDays (pre ++ rest) = pre.length := by
    unfold consecutiveLowDays
    rw [takeWhile_append_of_all isLowMood pre rest hpre]
    have hr : rest.takeWhile isLowMood = [] := by
      rcases hrest with h | ⟨q, tl, rfl, hq⟩
      · simp [h]
      · simp [List.takeWhile_cons, hq]
    simp [hr]
  have halerts : lowMoodAlerts (pre ++ rest) =
      (if 3 ≤ pre.length then
        [{ alert_type := "wellness_check",
           message := wellnessCheckMessage pre.length,
           severity := if 5 ≤ pre.length then "medium" else "low",
           suggested_action := some "Consider journaling about what\'s on your mind, or reaching out to someone you trust." }]
      else []) := by
    simp only [lowMoodAlerts, hstreak]
  refine ⟨hstreak, ?_, ?_⟩
  · rw [halerts]
    split
    · rename_i hcond
      simp [hcond]
    · rename_i hcond
      simp [hcond]
  · intro a ha
    rw [halerts] at ha
    split at ha
    · simp only [List.mem_singleton] at ha
      subst ha
      refine ⟨rfl, rfl, ?_⟩
      unfold wellnessCheckMessage
      exact strIncludes_concat _ _ _
    · simp at ha

/-- Witness for C5: three low days followed by a non-low day give a streak
of exactly 3; the alert fires with severity "low" and "3" in the message. -/
theorem consecutive_low_mood_streak_witness :
    consecutiveLowDays
        ([("2026-10-03", "sad"), ("2026-10-02", "Anxious"),
          ("2026-10-01", "stressed")] ++ [("2026-09-30", "good")]) = 3 ∧
    (lowMoodAlerts
        ([("2026-10-03", "sad"), ("2026-10-02", "Anxious"),
          ("2026-10-01", "stressed")] ++ [("2026-09-30", "good")]) ≠ []) ∧
    ∀ a ∈ lowMoodAlerts
        ([("2026-10-03", "sad"), ("2026-10-02", "Anxious"),
          ("2026-10-01", "stressed")] ++ [("2026-09-30", "good")]),
      a.severity = "low" ∧ strIncludes a.message "3" = true := by
  have h := consecutive_low_mood_streak
    [("2026-10-03", "sad"), ("2026-10-02", "Anxious"), ("2026-10-01", "stressed")]
    [("2026-09-30", "good")]
    (by decide) (Or.inr ⟨("2026-09-30", "good"), [], rfl, by decide⟩)
  refine ⟨h.1, h.2.1.mpr (by decide), ?_⟩
  intro a ha
  have h3 := h.2.2 a ha
  constructor
  · rw [h3.2.1]
    simp
  · exact h3.2.2

/-- Membership in a guarded singleton determines the element. -/
theorem mem_guard {c : Prop} [Decidable c] {x a : PatternAlert}
    (ha : a ∈ (if c then [x] else [])) : a = x := by
  split at ha
  · simpa using ha
  · simp at ha

/-- Every mood-pattern alert has severity "low" or "medium". -/
theorem moodPatternAlerts_severity (cs : List CheckIn) :
    ∀ a ∈ moodPatternAlerts cs, a.severity = "low" ∨ a.severity = "medium" := by
  intro a ha
  unfold moodPatternAlerts at ha
  split at ha
  · simp only [List.mem_append] at ha
    rcases ha with (ha | ha) | ha
    · have hx := mem_guard (x := _) ha
      rw [hx]
      by_cases h5 : 5 ≤ consecutiveLowDays (dailyMoods cs)
      · right
        simp [h5]
      · left
        simp [h5]
    · rw [mem_guard ha]
      right
      rfl
    · rw [mem_guard ha]
      left
      rfl
  · simp at ha

/-- Every symptom-pattern alert has severity "low" or "medium". -/
theorem symptomPatternAlerts_severity (ms : List ChatMessage) :
    ∀ a ∈ symptomPatternAlerts ms, a.severity = "low" ∨ a.severity = "medium" := by
  intro a ha
  unfold symptomPatternAlerts at ha
  split at ha
  · simp only [List.mem_append] at ha
    rcases ha with ((ha | ha) | ha) | ha
    · rw [mem_guard ha]; right; rfl
    · rw [mem_guard ha]; left; rfl
    · rw [mem_guard ha]; right; rfl
    · rw [mem_guard ha]; right; rfl
  · simp at ha

/-- Every lifestyle alert has severity "low" or "medium". -/
theorem lifestyleAlerts_severity (cs : List CheckIn) :
    ∀ a ∈ lifestyleAlerts cs, a.severity = "low" ∨ a.severity = "medium" := by
  intro a ha
  unfold lifestyleAlerts at ha
  split at ha
  · simp only [List.mem_append] at ha
    rcases ha with ha | ha
    · rw [mem_guard ha]; left; rfl
    · rw [mem_guard ha]; right; rfl
  · simp at ha

/-- Every inactivity alert has severity "low". -/
theorem inactivityAlerts_severity (getTime : String → Int) (now : Int)
    (cs : List CheckIn) :
    ∀ a ∈ inactivityAlerts getTime now cs, a.severity = "low" := by
  intro a ha
  rw [mem_guard ha]

/-- Every candidate alert of an invocation has severity "low" or "medium". -/
theorem analyzeAlerts_severity (getTime : String → Int) (now : Int)
    (checkIns : Option (List CheckIn)) (messages : Option (List ChatMessage)) :
    ∀ a ∈ analyzeAlerts getTime now checkIns messages,
      a.severity = "low" ∨ a.severity = "medium" := by
  intro a ha
  unfold analyzeAlerts at ha
  simp only [List.mem_append] at ha
  rcases ha with ((ha | ha) | ha) | ha
  · cases checkIns with
    | none => simp at ha
    | some cs => exact moodPatternAlerts_severity cs a ha
  · cases messages with
    | none => simp at ha
    | some ms => exact symptomPatternAlerts_severity ms a ha
  · cases checkIns with
    | none => simp at ha
    | some cs => exact lifestyleAlerts_severity cs a ha
  · cases checkIns with
    | none => simp at ha
    | some cs => exact Or.inl (inactivityAlerts_severity getTime now cs a ha)

/-- The alert-type column of the rows handed to the insert. -/
theorem alertsToInsert_types (l : List PatternAlert) :
    (alertsToInsert l).map AlertRow.alert_type = l.map PatternAlert.alert_type := by
  induction l with
  | nil => rfl
  | cons a t ih => simp [alertsToInsert, List.map_cons] at ih ⊢

/-- The severity column of a row comes from its candidate. -/
theorem alertsToInsert_severity (l : List PatternAlert) :
    ∀ r ∈ alertsToInsert l, ∃ a ∈ l, r.severity = a.severity := by
  intro r hr
  unfold alertsToInsert at hr
  rw [List.mem_map] at hr
  obtain ⟨a, ha, rfl⟩ := hr
  exact ⟨a, ha, rfl⟩

/-- C10: every alert the analyzer produces or persists carries severity
"low" or "medium"; no detector ever assigns "high" or "critical". -/
theorem severities_low_or_medium (rl : RateLimitOutcome) (getTime : String → Int)
    (now : Int) (checkIns : Option (List CheckIn))
    (messages : Option (List ChatMessage))
    (existingAlerts : List (String × String)) :
    (∀ a ∈ analyzeAlerts getTime now checkIns messages,
      a.severity = "low" ∨ a.severity = "medium") ∧
    ∀ r ∈ (handleRequest rl getTime now checkIns messages existingAlerts).inserted,
      r.severity = "low" ∨ r.severity = "medium" := by
  refine ⟨analyzeAlerts_severity getTime now checkIns messages, ?_⟩
  intro r hr
  unfold handleRequest at hr
  split at hr
  · simp at hr
  · obtain ⟨a, ha, hsev⟩ := alertsToInsert_severity _ r hr
    rw [hsev]
    exact analyzeAlerts_severity getTime now checkIns messages a
      (List.mem_of_mem_filter ha)

set_option maxRecDepth 8000 in
/-- Witness for C10: the persisted reminder row of a 6-day-gap invocation
has severity "low" or "medium" (it is "low"). -/
theorem severities_low_or_medium_witness :
    (((handleRequest (.ok (some { allowed := true })) (fun _ => 0) 518400000
        (some [{ id := "1", mood := "good", journal := none,
                 created_at := "2026-10-01T00:00:00Z" }])
        none []).inserted.headD
          { alert_type := "", message := "", severity := "" }).severity = "low" ∨
    ((handleRequest (.ok (some { allowed := true })) (fun _ => 0) 518400000
        (some [{ id := "1", mood := "good", journal := none,
                 created_at := "2026-10-01T00:00:00Z" }])
        none []).inserted.headD
          { alert_type := "", message := "", severity := "" }).severity = "medium") := by
  have h := severities_low_or_medium (.ok (some { allowed := true })) (fun _ => 0)
    518400000
    (some [{ id := "1", mood := "good", journal := none,
             created_at := "2026-10-01T00:00:00Z" }])
    none []
  exact h.2 _ (by decide)

/-- The mapped types of a guarded singleton form a sublist of the
singleton of its type. -/
theorem map_type_guard_sublist {c : Prop} [Decidable c] (x : PatternAlert) :
    (((if c then [x] else []) : List PatternAlert).map
      PatternAlert.alert_type).Sublist [x.alert_type] := by
  split <;> simp

/-- The mood detectors emit at most one alert each, with the three fixed
types in order. -/
theorem moodPatternAlerts_types (cs : List CheckIn) :
    ((moodPatternAlerts cs).map PatternAlert.alert_type).Sublist
      ["wellness_check", "stress_pattern", "mood_variability"] := by
  unfold moodPatternAlerts
  split
  · rw [List.map_append, List.map_append]
    have htarget : (["wellness_check", "stress_pattern", "mood_variability"] :
        List String) = ["wellness_check"] ++ ["stress_pattern"] ++ ["mood_variability"] := rfl
    rw [htarget]
    exact ((map_type_guard_sublist _).append (map_type_guard_sublist _)).append
      (map_type_guard_sublist _)
  · simp

/-- The symptom detectors emit at most one alert each, with the four fixed
types in order. -/
theorem symptomPatternAlerts_types (ms : List ChatMessage) :
    ((symptomPatternAlerts ms).map PatternAlert.alert_type).Sublist
      ["recurring_symptom", "sleep_pattern", "energy_pattern", "mental_wellness"] := by
  unfold symptomPatternAlerts
  split
  · rw [List.map_append, List.map_append, List.map_append]
    have htarget : (["recurring_symptom", "sleep_pattern", "energy_pattern",
        "mental_wellness"] : List String) =
        ["recurring_symptom"] ++ ["sleep_pattern"] ++ ["energy_pattern"] ++
          ["mental_wellness"] := rfl
    rw [htarget]
    exact (((map_type_guard_sublist _).append (map_type_guard_sublist _)).append
      (map_type_guard_sublist _)).append (map_type_guard_sublist _)
  · simp

/-- The lifestyle detectors emit at most one alert each, with the two fixed
types in order. -/
theorem lifestyleAlerts_types (cs : List CheckIn) :
    ((lifestyleAlerts cs).map PatternAlert.alert_type).Sublist
      ["social_wellness", "work_life_balance"] := by
  unfold lifestyleAlerts
  split
  · rw [List.map_append]
    have htarget : (["social_wellness", "work_life_balance"] : List String) =
        ["social_wellness"] ++ ["work_life_balance"] := rfl
    rw [htarget]
    exact (map_type_guard_sublist _).append (map_type_guard_sublist _)
  · simp

/-- The inactivity detector emits at most one alert, of the fixed type. -/
theorem inactivityAlerts_types (getTime : String → Int) (now : Int)
    (cs : List CheckIn) :
    ((inactivityAlerts getTime now cs).map PatternAlert.alert_type).Sublist
      ["check_in_reminder"] :=
  map_type_guard_sublist _

/-- The candidate list's types form a sublist of the ten fixed tags. -/
theorem analyzeAlerts_types (getTime : String → Int) (now : Int)
    (checkIns : Option (List CheckIn)) (messages : Option (List ChatMessage)) :
    ((analyzeAlerts getTime now checkIns messages).map
      PatternAlert.alert_type).Sublist analyzerAlertTypes := by
  unfold analyzeAlerts
  have htarget : analyzerAlertTypes =
      ["wellness_check", "stress_pattern", "mood_variability"] ++
        ["recurring_symptom", "sleep_pattern", "energy_pattern", "mental_wellness"] ++
        ["social_wellness", "work_life_balance"] ++ ["check_in_reminder"] := rfl
  rw [htarget, List.map_append, List.map_append, List.map_append]
  refine ((List.Sublist.append (List.Sublist.append ?_ ?_) ?_)).append ?_
  · cases checkIns with
    | none => exact List.nil_sublist _
    | some cs => exact moodPatternAlerts_types cs
  · cases messages with
    | none => exact List.nil_sublist _
    | some ms => exact symptomPatternAlerts_types ms
  · cases checkIns with
    | none => exact List.nil_sublist _
    | some cs => exact lifestyleAlerts_types cs
  · cases checkIns with
    | none => exact List.nil_sublist _
    | some cs => exact inactivityAlerts_types getTime now cs

/-- C9: within one invocation no two candidate alerts share an
`alert_type`: the candidate types form a sublist of the ten pairwise
distinct tags, hence are themselves distinct, at most 10 alerts are
persisted per run, and no two rows of one persisted batch share an
`alert_type`. -/
theorem alert_types_unique (rl : RateLimitOutcome) (getTime : String → Int)
    (now : Int) (checkIns : Option (List CheckIn))
    (messages : Option (List ChatMessage))
    (existingAlerts : List (String × String)) :
    ((analyzeAlerts getTime now checkIns messages).map
      PatternAlert.alert_type).Sublist analyzerAlertTypes ∧
    analyzerAlertTypes.Nodup ∧
    ((analyzeAlerts getTime now checkIns messages).map
      PatternAlert.alert_type).Nodup ∧
    (((handleRequest rl getTime now checkIns messages existingAlerts).inserted).map
      AlertRow.alert_type).Nodup ∧
    ((handleRequest rl getTime now checkIns messages existingAlerts).inserted).length
      ≤ 10 := by
  have hsub := analyzeAlerts_types getTime now checkIns messages
  have hnodup10 : analyzerAlertTypes.Nodup := by decide
  have hfresh : (newAlerts (analyzeAlerts getTime now checkIns messages)
      (existingAlertTypes existingAlerts)).Sublist
      (analyzeAlerts getTime now checkIns messages) := List.filter_sublist _
  have hfreshtypes := (hfresh.map PatternAlert.alert_type).trans hsub
  refine ⟨hsub, hnodup10, hsub.nodup hnodup10, ?_, ?_⟩
  · unfold handleRequest
    split
    · simp
    · rw [alertsToInsert_types]
      exact hfreshtypes.nodup hnodup10
  · unfold handleRequest
    split
    · simp
    · have hlen : ((newAlerts (analyzeAlerts getTime now checkIns messages)
          (existingAlertTypes existingAlerts)).map PatternAlert.alert_type).length
          ≤ analyzerAlertTypes.length := hfreshtypes.length_le
      simp only [List.length_map] at hlen
      simpa [alertsToInsert] using hlen

/-- `statusWhen` reports "analyzed" exactly for a true condition. -/
theorem statusWhen_eq_analyzed (b : Bool) : statusWhen b = "analyzed" ↔ b = true := by
  cases b <;> simp [statusWhen]

set_option maxRecDepth 2000 in
/-- Counterexample for C1: a single check-in (one distinct-day mood sample,
fewer than 3) already makes the summary report `moodTrend: "analyzed"`. -/
theorem moodTrend_status_counterexample :
    (patternsSummary
        (some [{ id := "1", mood := "sad", journal := none,
                 created_at := "2026-10-01T00:00:00Z" }])
        (some [])).moodTrend = "analyzed" ∧
    (([{ id := "1", mood := "sad", journal := none,
         created_at := "2026-10-01T00:00:00Z" }] : List CheckIn).map
      (fun c => dayOf c.created_at)).dedup.length < 3 := by
  decide

/-- C1 (amended): `moodTrend` is "analyzed" exactly when at least one
check-in exists (not at the ≥ 3 precondition of the mood detectors),
`symptomPatterns` exactly when at least one message exists,
`lifestyleIndicators` exactly when at least five check-ins exist; and with
zero check-ins and zero messages all three statuses are
"insufficient_data" and no alert is generated or persisted. -/
theorem patterns_summary_statuses :
    (∀ (checkIns : Option (List CheckIn)) (messages : Option (List ChatMessage)),
      ((patternsSummary checkIns messages).moodTrend = "analyzed" ↔
        ∃ cs, checkIns = some cs ∧ 0 < cs.length) ∧
      ((patternsSummary checkIns messages).symptomPatterns = "analyzed" ↔
        ∃ ms, messages = some ms ∧ 0 < ms.length) ∧
      ((patternsSummary checkIns messages).lifestyleIndicators = "analyzed" ↔
        ∃ cs, checkIns = some cs ∧ 5 ≤ cs.length)) ∧
    ∀ (getTime : String → Int) (now : Int) (E : List (String × String)),
      handleRequest (.ok (some { allowed := true })) getTime now (some []) (some []) E =
        { response := .completed 0
            { moodTrend := "insufficient_data",
              symptomPatterns := "insufficient_data",
              lifestyleIndicators := "insufficient_data" },
          inserted := [] } := by
  constructor
  · intro checkIns messages
    refine ⟨?_, ?_, ?_⟩
    · cases checkIns with
      | none => simp [patternsSummary, statusWhen]
      | some cs => simp [patternsSummary, statusWhen_eq_analyzed]
    · cases messages with
      | none => simp [patternsSummary, statusWhen]
      | some ms => simp [patternsSummary, statusWhen_eq_analyzed]
    · cases checkIns with
      | none => simp [patternsSummary, statusWhen]
      | some cs => simp [patternsSummary, statusWhen_eq_analyzed]
  · intro getTime now E
    rfl

set_option maxRecDepth 8000 in
/-- Counterexample for C2: five check-ins whose journals all fall on the
same calendar day and all mention isolation give the `social_isolation`
indicator a count of 5 (not at most 1), and the `social_wellness` alert
fires from same-day repetition alone. -/
theorem lifestyle_same_day_counterexample :
    (∀ x ∈ ([{ id := "1", mood := "okay", journal := some "feeling lonely today",
               created_at := "2026-10-01T08:00:00Z" },
             { id := "2", mood := "okay", journal := some "still lonely",
               created_at := "2026-10-01T10:00:00Z" },
             { id := "3", mood := "okay", journal := some "lonely again",
               created_at := "2026-10-01T12:00:00Z" },
             { id := "4", mood := "okay", journal := some "so lonely",
               created_at := "2026-10-01T14:00:00Z" },
             { id := "5", mood := "okay", journal := some "very lonely",
               created_at := "2026-10-01T16:00:00Z" }] : List CheckIn),
      dayOf x.created_at = "2026-10-01") ∧
    patternCount socialIsolationKeywords
      (journalEntries
        [{ id := "1", mood := "okay", journal := some "feeling lonely today",
           created_at := "2026-10-01T08:00:00Z" },
         { id := "2", mood := "okay", journal := some "still lonely",
           created_at := "2026-10-01T10:00:00Z" },
         { id := "3", mood := "okay", journal := some "lonely again",
           created_at := "2026-10-01T12:00:00Z" },
         { id := "4", mood := "okay", journal := some "so lonely",
           created_at := "2026-10-01T14:00:00Z" },
         { id := "5", mood := "okay", journal := some "very lonely",
           created_at := "2026-10-01T16:00:00Z" }]) = 5 ∧
    socialWellnessAlert ∈ lifestyleAlerts
      [{ id := "1", mood := "okay", journal := some "feeling lonely today",
         created_at := "2026-10-01T08:00:00Z" },
       { id := "2", mood := "okay", journal := some "still lonely",
         created_at := "2026-10-01T10:00:00Z" },
       { id := "3", mood := "okay", journal := some "lonely again",
         created_at := "2026-10-01T12:00:00Z" },
       { id := "4", mood := "okay", journal := some "so lonely",
         created_at := "2026-10-01T14:00:00Z" },
       { id := "5", mood := "okay", journal := some "very lonely",
         created_at := "2026-10-01T16:00:00Z" }] := by
  decide

/-- C2 (amended): lifestyle-indicator counts are per-journal-entry counts,
one per entry in which any keyword of the category occurs (several keyword
hits inside one entry still count once), with no per-day collapsing; the
`social_wellness` and `work_life_balance` alerts fire exactly at 3 such
entries (given the 5-check-in gate), even when the entries share one
calendar day. -/
theorem lifestyle_per_entry_counts :
    (∀ keywords : List String, patternCount keywords [] = 0) ∧
    (∀ (keywords : List String) (e : String) (es : List String),
      patternCount keywords (e :: es) =
        (if keywords.any (fun kw => strIncludes e kw) then 1 else 0) +
          patternCount keywords es) ∧
    ∀ cs : List CheckIn,
      (socialWellnessAlert ∈ lifestyleAlerts cs ↔
        5 ≤ cs.length ∧
          3 ≤ patternCount socialIsolationKeywords (journalEntries cs)) ∧
      (workLifeBalanceAlert ∈ lifestyleAlerts cs ↔
        5 ≤ cs.length ∧
          3 ≤ patternCount workStressKeywords (journalEntries cs)) := by
  refine ⟨fun keywords => rfl, ?_, ?_⟩
  · intro keywords e es
    unfold patternCount
    rw [List.filter_cons]
    split
    · simp [patternCount]
      omega
    · simp [patternCount]
  · intro cs
    by_cases hgate : 5 ≤ cs.length
    · have hl : lifestyleAlerts cs =
          (if 3 ≤ patternCount socialIsolationKeywords (journalEntries cs) then
            [socialWellnessAlert] else []) ++
          (if 3 ≤ patternCount workStressKeywords (journalEntries cs) then
            [workLifeBalanceAlert] else []) := by
        simp [lifestyleAlerts, hgate]
      have hne : socialWellnessAlert ≠ workLifeBalanceAlert := by decide
      rw [hl]
      by_cases h1 : 3 ≤ patternCount socialIsolationKeywords (journalEntries cs) <;>
        by_cases h2 : 3 ≤ patternCount workStressKeywords (journalEntries cs) <;>
        exact ⟨by simp [h1, h2, hgate, hne], by simp [h1, h2, hgate, Ne.symm hne]⟩
    · simp [lifestyleAlerts, hgate]

/-- A list whose elements are all equal dedups to at most one element. -/
theorem dedup_length_le_one (l : List String) (d : String)
    (h : ∀ x ∈ l, x = d) : l.dedup.length ≤ 1 := by
  induction l with
  | nil => simp
  | cons a t ih =>
    by_cases hm : a ∈ t
    · rw [List.dedup_cons_of_mem hm]
      exact ih (fun x hx => h x (List.mem_cons_of_mem a hx))
    · cases t with
      | nil => simp
      | cons b t2 =>
        exfalso
        apply hm
        rw [h a (List.mem_cons_self _ _), ← h b (by simp)]
        simp

/-- Membership in a guarded singleton, as an equivalence. -/
theorem mem_guard_iff {c : Prop} [Decidable c] {x a : PatternAlert} :
    a ∈ (if c then [x] else []) ↔ c ∧ a = x := by
  split <;> rename_i h <;> simp [h]

/-- C4: symptom category counts are distinct-day counts (messages sharing
one calendar day contribute at most 1), and each symptom alert fires
exactly at its fixed distinct-day threshold with its fixed type/severity:
headache ≥ 3 → recurring_symptom/medium, sleep ≥ 3 → sleep_pattern/low,
fatigue ≥ 4 → energy_pattern/medium, anxiety ≥ 3 → mental_wellness/medium,
each category independently. -/
theorem symptom_distinct_day_thresholds :
    (∀ (messages : List ChatMessage) (d : String) (keywords : List String),
      (∀ m ∈ messages, dayOf m.created_at = d) →
      (categoryDates keywords messages).length ≤ 1) ∧
    (recurringSymptomAlert.alert_type = "recurring_symptom" ∧
      recurringSymptomAlert.severity = "medium" ∧
      sleepPatternAlert.alert_type = "sleep_pattern" ∧
      sleepPatternAlert.severity = "low" ∧
      energyPatternAlert.alert_type = "energy_pattern" ∧
      energyPatternAlert.severity = "medium" ∧
      mentalWellnessAlert.alert_type = "mental_wellness" ∧
      mentalWellnessAlert.severity = "medium") ∧
    ∀ messages : List ChatMessage,
      (recurringSymptomAlert ∈ symptomPatternAlerts messages ↔
        0 < messages.length ∧
          3 ≤ (categoryDates headacheKeywords messages).length) ∧
      (sleepPatternAlert ∈ symptomPatternAlerts messages ↔
        0 < messages.length ∧
          3 ≤ (categoryDates sleepKeywords messages).length) ∧
      (energyPatternAlert ∈ symptomPatternAlerts messages ↔
        0 < messages.length ∧
          4 ≤ (categoryDates fatigueKeywords messages).length) ∧
      (mentalWellnessAlert ∈ symptomPatternAlerts messages ↔
        0 < messages.length ∧
          3 ≤ (categoryDates anxietyKeywords messages).length) := by
  refine ⟨?_, by decide, ?_⟩
  · intro messages d keywords h
    unfold categoryDates
    apply dedup_length_le_one _ d
    intro x hx
    rw [List.mem_map] at hx
    obtain ⟨m, hm, rfl⟩ := hx
    exact h m (List.mem_of_mem_filter hm)
  · intro messages
    have h1 : recurringSymptomAlert ≠ sleepPatternAlert := by decide
    have h2 : recurringSymptomAlert ≠ energyPatternAlert := by decide
    have h3 : recurringSymptomAlert ≠ mentalWellnessAlert := by decide
    have h4 : sleepPatternAlert ≠ energyPatternAlert := by decide
    have h5 : sleepPatternAlert ≠ mentalWellnessAlert := by decide
    have h6 : energyPatternAlert ≠ mentalWellnessAlert := by decide
    by_cases hgate : 0 < messages.length
    · refine ⟨?_, ?_, ?_, ?_⟩ <;>
        simp [symptomPatternAlerts, hgate, mem_guard_iff, h1, h2, h3, h4, h5, h6,
          h1.symm, h2.symm, h3.symm, h4.symm, h5.symm, h6.symm]
    · refine ⟨?_, ?_, ?_, ?_⟩ <;> simp [symptomPatternAlerts, hgate]

set_option maxRecDepth 8000 in
/-- Witness for C4: five "headache" messages on one calendar day give a
distinct-day count of at most 1 and the recurring_symptom alert does not
fire. -/
theorem symptom_distinct_day_thresholds_witness :
    (categoryDates headacheKeywords
      [{ id := "1", content := "bad headache", role := "user",
         created_at := "2026-10-01T08:00:00Z" },
       { id := "2", content := "headache again", role := "user",
         created_at := "2026-10-01T10:00:00Z" },
       { id := "3", content := "my headache", role := "user",
         created_at := "2026-10-01T12:00:00Z" },
       { id := "4", content := "headache", role := "user",
         created_at := "2026-10-01T14:00:00Z" },
       { id := "5", content := "such a headache", role := "user",
         created_at := "2026-10-01T16:00:00Z" }]).length ≤ 1 ∧
    recurringSymptomAlert ∉ symptomPatternAlerts
      [{ id := "1", content := "bad headache", role := "user",
         created_at := "2026-10-01T08:00:00Z" },
       { id := "2", content := "headache again", role := "user",
         created_at := "2026-10-01T10:00:00Z" },
       { id := "3", content := "my headache", role := "user",
         created_at := "2026-10-01T12:00:00Z" },
       { id := "4", content := "headache", role := "user",
         created_at := "2026-10-01T14:00:00Z" },
       { id := "5", content := "such a headache", role := "user",
         created_at := "2026-10-01T16:00:00Z" }] := by
  have h := symptom_distinct_day_thresholds
  have hle := h.1
    [{ id := "1", content := "bad headache", role := "user",
       created_at := "2026-10-01T08:00:00Z" },
     { id := "2", content := "headache again", role := "user",
       created_at := "2026-10-01T10:00:00Z" },
     { id := "3", content := "my headache", role := "user",
       created_at := "2026-10-01T12:00:00Z" },
     { id := "4", content := "headache", role := "user",
       created_at := "2026-10-01T14:00:00Z" },
     { id := "5", content := "such a headache", role := "user",
       created_at := "2026-10-01T16:00:00Z" }]
    "2026-10-01" headacheKeywords (by decide)
  refine ⟨hle, fun hmem => ?_⟩
  have hcount := ((h.2.2 _).1.mp hmem).2
  omega

set_option maxRecDepth 8000 in
/-- The wellness-check message is at least 50 characters for every streak
length (its fixed prefix alone has 49 and its suffix is nonempty). -/
theorem wellnessCheckMessage_length (n : Nat) :
    50 ≤ (wellnessCheckMessage n).data.length := by
  unfold wellnessCheckMessage
  rw [String.data_append, String.data_append, List.length_append,
    List.length_append]
  have h1 : ("We\'ve noticed you\'ve been feeling a bit down for " :
      String).data.length = 49 := by decide
  have h2 : 1 ≤ (" days in a row. That\'s completely okay – everyone goes through tough patches. Taking small steps like a short walk, talking to a friend, or doing something you enjoy might help lift your spirits." :
      String).data.length := by decide
  omega

set_option maxRecDepth 8000 in
/-- The check-in-reminder message is at least 50 characters for every day
count. -/
theorem checkInReminderMessage_length (days : Int) :
    50 ≤ (checkInReminderMessage days).data.length := by
  unfold checkInReminderMessage
  rw [String.data_append, String.data_append, List.length_append,
    List.length_append]
  have h1 : ("It\'s been " : String).data.length = 10 := by decide
  have h2 : 40 ≤ (" days since your last check-in. Regular check-ins help us understand how you\'re doing and provide better support. We\'d love to hear from you when you have a moment!" :
      String).data.length := by decide
  omega

set_option maxRecDepth 8000 in
/-- Every mood-pattern alert's message has at least 50 characters. -/
theorem moodPatternAlerts_message_length (cs : List CheckIn) :
    ∀ a ∈ moodPatternAlerts cs, 50 ≤ a.message.data.length := by
  intro a ha
  unfold moodPatternAlerts at ha
  split at ha
  · simp only [List.mem_append] at ha
    rcases ha with (ha | ha) | ha
    · rw [mem_guard ha]
      exact wellnessCheckMessage_length _
    · rw [mem_guard ha]; decide
    · rw [mem_guard ha]; decide
  · simp at ha

set_option maxRecDepth 8000 in
/-- Every symptom-pattern alert's message has at least 50 characters. -/
theorem symptomPatternAlerts_message_length (ms : List ChatMessage) :
    ∀ a ∈ symptomPatternAlerts ms, 50 ≤ a.message.data.length := by
  intro a ha
  unfold symptomPatternAlerts at ha
  split at ha
  · simp only [List.mem_append] at ha
    rcases ha with ((ha | ha) | ha) | ha
    · rw [mem_guard ha]; decide
    · rw [mem_guard ha]; decide
    · rw [mem_guard ha]; decide
    · rw [mem_guard ha]; decide
  · simp at ha

set_option maxRecDepth 8000 in
/-- Every lifestyle alert's message has at least 50 characters. -/
theorem lifestyleAlerts_message_length (cs : List CheckIn) :
    ∀ a ∈ lifestyleAlerts cs, 50 ≤ a.message.data.length := by
  intro a ha
  unfold lifestyleAlerts at ha
  split at ha
  · simp only [List.mem_append] at ha
    rcases ha with ha | ha
    · rw [mem_guard ha]; decide
    · rw [mem_guard ha]; decide
  · simp at ha

/-- Every candidate alert's message has at least 50 characters, so the
50-character dedup prefix never reaches the appended suggestion. -/
theorem analyzeAlerts_message_length (getTime : String → Int) (now : Int)
    (checkIns : Option (List CheckIn)) (messages : Option (List ChatMessage)) :
    ∀ a ∈ analyzeAlerts getTime now checkIns messages,
      50 ≤ a.message.data.length := by
  intro a ha
  unfold analyzeAlerts at ha
  simp only [List.mem_append] at ha
  rcases ha with ((ha | ha) | ha) | ha
  · cases checkIns with
    | none => simp at ha
    | some cs => exact moodPatternAlerts_message_length cs a ha
  · cases messages with
    | none => simp at ha
    | some ms => exact symptomPatternAlerts_message_length ms a ha
  · cases checkIns with
    | none => simp at ha
    | some cs => exact lifestyleAlerts_message_length cs a ha
  · cases checkIns with
    | none => simp at ha
    | some cs =>
      rw [mem_guard ha]
      exact checkInReminderMessage_length _

/-- Appending the suggestion does not change the first 50 characters of a
message that is at least 50 characters long. -/
theorem jsSubstring_persistMessage (a : PatternAlert)
    (h : 50 ≤ a.message.data.length) :
    jsSubstring (persistMessage a) 50 = jsSubstring a.message 50 := by
  unfold persistMessage
  cases hsa : a.suggested_action with
  | none => rfl
  | some s =>
    unfold jsSubstring
    congr 1
    rw [String.data_append, String.data_append, List.append_assoc,
      List.take_append_of_le_length h]

/-- C3: running the pipeline a second time in immediate succession with no
new signal data, against an alert store extended by exactly the rows the
first run persisted, generates zero alerts: every second-run candidate's
dedup key is already present among the keys of the first run's persisted
alerts. -/
theorem dedup_idempotent (getTime : String → Int) (now : Int)
    (checkIns : Option (List CheckIn)) (messages : Option (List ChatMessage))
    (existingAlerts : List (String × String)) :
    (handleRequest (.ok (some { allowed := true })) getTime now checkIns messages
      (existingAlerts ++
        ((handleRequest (.ok (some { allowed := true })) getTime now checkIns
            messages existingAlerts).inserted.map
          (fun r => (r.alert_type, r.message))))).response =
      .completed 0 (patternsSummary checkIns messages) := by
  have hinner : (handleRequest (.ok (some { allowed := true })) getTime now
      checkIns messages existingAlerts).inserted =
      alertsToInsert (newAlerts (analyzeAlerts getTime now checkIns messages)
        (existingAlertTypes existingAlerts)) := rfl
  rw [hinner]
  have houter : ∀ E, (handleRequest (.ok (some { allowed := true })) getTime now
      checkIns messages E).response =
      .completed (newAlerts (analyzeAlerts getTime now checkIns messages)
        (existingAlertTypes E)).length (patternsSummary checkIns messages) :=
    fun E => rfl
  rw [houter]
  have hnil : newAlerts (analyzeAlerts getTime now checkIns messages)
      (existingAlertTypes (existingAlerts ++
        (alertsToInsert (newAlerts (analyzeAlerts getTime now checkIns messages)
          (existingAlertTypes existingAlerts))).map
            (fun r => (r.alert_type, r.message)))) = [] := by
    unfold newAlerts
    rw [List.filter_eq_nil_iff]
    intro a ha
    simp only [Bool.not_eq_true, Bool.not_not, Bool.not_eq_false]
    have hmem : alertKey a ∈ existingAlertTypes (existingAlerts ++
        (alertsToInsert (newAlerts (analyzeAlerts getTime now checkIns messages)
          (existingAlertTypes existingAlerts))).map
            (fun r => (r.alert_type, r.message))) := by
      unfold existingAlertTypes
      rw [List.map_append]
      by_cases hk : alertKey a ∈ existingAlertTypes existingAlerts
      · exact List.mem_append_left _ hk
      · apply List.mem_append_right
        have hfresh : a ∈ newAlerts (analyzeAlerts getTime now checkIns messages)
            (existingAlertTypes existingAlerts) := by
          unfold newAlerts
          rw [List.mem_filter]
          exact ⟨ha, by simpa using hk⟩
        have hrow : AlertRow.mk a.alert_type (persistMessage a) a.severity ∈
            alertsToInsert (newAlerts (analyzeAlerts getTime now checkIns messages)
              (existingAlertTypes existingAlerts)) := by
          unfold alertsToInsert
          exact List.mem_map.mpr ⟨a, hfresh, rfl⟩
        have hpair : (a.alert_type, persistMessage a) ∈
            (alertsToInsert (newAlerts (analyzeAlerts getTime now checkIns messages)
              (existingAlertTypes existingAlerts))).map
                (fun r => (r.alert_type, r.message)) :=
          List.mem_map.mpr ⟨_, hrow, rfl⟩
        refine List.mem_map.mpr ⟨(a.alert_type, persistMessage a), hpair, ?_⟩
        show a.alert_type ++ ":" ++ jsSubstring (persistMessage a) 50 = alertKey a
        rw [jsSubstring_persistMessage a
          (analyzeAlerts_message_length getTime now checkIns messages a ha)]
        rfl
    simpa [newAlerts] using hmem
  rw [hnil]
  rfl

/-- Inserting a check-in appends it to its day's slot and leaves every
other slot unchanged. -/
theorem lookupDay_insertByDay (m : List (String × List CheckIn)) (day : String)
    (c : CheckIn) (d : String) :
    lookupDay (insertByDay m day c) d =
      lookupDay m d ++ (if day = d then [c] else []) := by
  induction m with
  | nil =>
    by_cases h : day = d <;> simp [insertByDay, lookupDay, h]
  | cons p rest ih =>
    obtain ⟨dd, l⟩ := p
    by_cases h1 : dd = day
    · by_cases h2 : dd = d
      · have hdd : day = d := h1.symm.trans h2
        simp [insertByDay, lookupDay, h1, h2, hdd]
      · have hdd : ¬day = d := fun hh => h2 (h1.trans hh)
        simp [insertByDay, lookupDay, h1, h2, hdd]
    · by_cases h2 : dd = d
      · have hdd : ¬day = d := fun hh => h1 (h2.trans hh.symm)
        have hdz : ¬d = day := fun hh => h1 (h2.trans hh)
        simp [insertByDay, lookupDay, h1, h2, hdd, hdz]
      · simp [insertByDay, lookupDay, h1, h2, ih]

/-- After folding a batch of check-ins into the map, each day's slot holds
the previous content followed by that day's check-ins in input order. -/
theorem lookupDay_foldl (cs : List CheckIn) (m : List (String × List CheckIn))
    (d : String) :
    lookupDay (cs.foldl (fun acc c => insertByDay acc (dayOf c.created_at) c) m) d =
      lookupDay m d ++ cs.filter (fun c => dayOf c.created_at == d) := by
  induction cs generalizing m with
  | nil => simp
  | cons c cs ih =>
    rw [List.foldl_cons, ih, lookupDay_insertByDay, List.filter_cons]
    by_cases h : dayOf c.created_at = d
    · simp [h]
    · simp [h]

/-- Inserting a check-in either keeps the key list or appends the new day
at the end. -/
theorem keys_insertByDay (m : List (String × List CheckIn)) (day : String)
    (c : CheckIn) :
    (insertByDay m day c).map Prod.fst =
      (if day ∈ m.map Prod.fst then m.map Prod.fst
       else m.map Prod.fst ++ [day]) := by
  induction m with
  | nil => simp [insertByDay]
  | cons p rest ih =>
    obtain ⟨dd, l⟩ := p
    by_cases h1 : dd = day
    · subst h1
      simp [insertByDay]
    · by_cases h2 : day ∈ rest.map Prod.fst <;>
        simp [insertByDay, h1, h2, ih, Ne.symm h1]

/-- Folding preserves distinctness of the day keys. -/
theorem keys_nodup_foldl (cs : List CheckIn) (m : List (String × List CheckIn))
    (h : (m.map Prod.fst).Nodup) :
    (((cs.foldl (fun acc c => insertByDay acc (dayOf c.created_at) c) m)).map
      Prod.fst).Nodup := by
  induction cs generalizing m with
  | nil => exact h
  | cons c cs ih =>
    rw [List.foldl_cons]
    apply ih
    rw [keys_insertByDay]
    split
    · exact h
    · rename_i hmem
      simp [List.nodup_append, h, hmem]

/-- A day is a key of the folded map exactly when it was one before or
occurs in the batch. -/
theorem keys_mem_foldl (cs : List CheckIn) (m : List (String × List CheckIn))
    (d : String) :
    d ∈ ((cs.foldl (fun acc c => insertByDay acc (dayOf c.created_at) c) m)).map
      Prod.fst ↔
      d ∈ m.map Prod.fst ∨ d ∈ cs.map (fun c => dayOf c.created_at) := by
  induction cs generalizing m with
  | nil => simp
  | cons c cs ih =>
    rw [List.foldl_cons, ih, keys_insertByDay]
    split
    · rename_i hmem
      simp only [List.map_cons, List.mem_cons]
      constructor
      · rintro (h | h)
        · exact Or.inl h
        · exact Or.inr (Or.inr h)
      · rintro (h | h | h)
        · exact Or.inl h
        · exact Or.inl (h ▸ hmem)
        · exact Or.inr h
    · rename_i hmem
      simp only [List.mem_append, List.mem_singleton, List.map_cons,
        List.mem_cons]
      tauto

/-- With distinct keys, lookup of a stored pair's key returns its value. -/
theorem lookupDay_of_mem (m : List (String × List CheckIn))
    (h : (m.map Prod.fst).Nodup) :
    ∀ p ∈ m, lookupDay m p.1 = p.2 := by
  induction m with
  | nil => simp
  | cons q rest ih =>
    intro p hp
    rcases List.mem_cons.mp hp with rfl | hp2
    · simp [lookupDay]
    · have hne : q.1 ≠ p.1 := by
        intro he
        have hm : p.1 ∈ rest.map Prod.fst := List.mem_map.mpr ⟨p, hp2, rfl⟩
        rw [List.map_cons, List.nodup_cons] at h
        exact h.1 (he ▸ hm)
      rw [show lookupDay (q :: rest) p.1 =
        (if q.1 = p.1 then q.2 else lookupDay rest p.1) from rfl, if_neg hne]
      rw [List.map_cons, List.nodup_cons] at h
      exact ih h.2 p hp2

/-- `find?` returns the head of the filtered list. -/
theorem find?_eq_head?_filter {α : Type} (p : α → Bool) (l : List α) :
    l.find? p = (l.filter p).head? := by
  induction l with
  | nil => rfl
  | cons a t ih =>
    cases h : p a
    · rw [List.find?_cons_of_neg _ (by simp [h]), List.filter_cons_of_neg, ih]
      simp [h]
    · rw [List.find?_cons_of_pos _ h, List.filter_cons_of_pos]
      · rfl
      · exact h

/-- Totality of the lexicographic comparison. -/
theorem charListLe_total (xs ys : List Char) :
    charListLe xs ys = true ∨ charListLe ys xs = true := by
  induction xs generalizing ys with
  | nil => left; rfl
  | cons x xs ih =>
    cases ys with
    | nil => right; rfl
    | cons y ys =>
      by_cases h : x = y
      · subst h
        rcases ih ys with hle | hle <;> simp [charListLe, hle]
      · rcases lt_trichotomy x y with hlt | heq | hgt
        · left; simp [charListLe, h, hlt]
        · exact absurd heq h
        · right; simp [charListLe, Ne.symm h, hgt]

/-- Transitivity of the lexicographic comparison. -/
theorem charListLe_trans (xs ys zs : List Char)
    (h1 : charListLe xs ys = true) (h2 : charListLe ys zs = true) :
    charListLe xs zs = true := by
  induction xs generalizing ys zs with
  | nil => rfl
  | cons x xs ih =>
    cases ys with
    | nil => simp [charListLe] at h1
    | cons y ys =>
      cases zs with
      | nil => simp [charListLe] at h2
      | cons z zs =>
        by_cases hxy : x = y
        · subst hxy
          simp only [charListLe, if_pos rfl] at h1
          by_cases hyz : x = z
          · subst hyz
            simp only [charListLe, if_pos rfl] at h2 ⊢
            exact ih ys zs h1 h2
          · simp only [charListLe, if_neg hyz] at h2 ⊢
            exact h2
        · simp only [charListLe, if_neg hxy, decide_eq_true_iff] at h1
          by_cases hyz : y = z
          · subst hyz
            simp [charListLe, hxy, h1]
          · simp only [charListLe, if_neg hyz, decide_eq_true_iff] at h2
            have hxz : x < z := lt_trans h1 h2
            simp [charListLe, ne_of_lt hxz, hxz]

/-- Each day's slot of the finished map is exactly that day's check-ins in
input order. -/
theorem checkInsByDay_lookup (cs : List CheckIn) (d : String) :
    lookupDay (checkInsByDay cs) d =
      cs.filter (fun c => dayOf c.created_at == d) := by
  unfold checkInsByDay
  rw [lookupDay_foldl]
  rfl

/-- The finished map has pairwise distinct day keys. -/
theorem checkInsByDay_keys_nodup (cs : List CheckIn) :
    ((checkInsByDay cs).map Prod.fst).Nodup :=
  keys_nodup_foldl cs [] (by simp)

/-- The finished map's keys are exactly the days occurring in the input. -/
theorem checkInsByDay_keys_mem (cs : List CheckIn) (d : String) :
    d ∈ (checkInsByDay cs).map Prod.fst ↔
      d ∈ cs.map (fun c => dayOf c.created_at) := by
  unfold checkInsByDay
  rw [keys_mem_foldl]
  simp

/-- Every pre-sort entry is a day present in the input together with the
mood of the first check-in of that day (input is newest-first, so the
most recent one). -/
theorem mem_dailyMoodsUnsorted (cs : List CheckIn) (e : String × String)
    (he : e ∈ dailyMoodsUnsorted cs) :
    ∃ k, cs.find? (fun c => dayOf c.created_at == e.1) = some k ∧
      k.mood = e.2 := by
  unfold dailyMoodsUnsorted at he
  rw [List.mem_map] at he
  obtain ⟨p, hp, he⟩ := he
  have hl : lookupDay (checkInsByDay cs) p.1 = p.2 :=
    lookupDay_of_mem _ (checkInsByDay_keys_nodup cs) p hp
  have hfp : cs.filter (fun c => dayOf c.created_at == p.1) = p.2 := by
    rw [← checkInsByDay_lookup cs p.1, hl]
  have hk : p.1 ∈ (checkInsByDay cs).map Prod.fst :=
    List.mem_map.mpr ⟨p, hp, rfl⟩
  rw [checkInsByDay_keys_mem] at hk
  have hfil : p.2 ≠ [] := by
    rw [List.mem_map] at hk
    obtain ⟨c, hc, hceq⟩ := hk
    intro hnil
    have hcf : c ∈ cs.filter (fun c => dayOf c.created_at == p.1) :=
      List.mem_filter.mpr ⟨hc, by simp [hceq]⟩
    rw [hfp, hnil] at hcf
    simp at hcf
  rw [← he]
  dsimp only
  rw [find?_eq_head?_filter, hfp]
  cases hp2 : p.2 with
  | nil => exact absurd hp2 hfil
  | cons k t => exact ⟨k, by simp, by simp⟩

/-- The pre-sort day keys are a permutation of the deduplicated input
days. -/
theorem dailyMoodsUnsorted_keys_perm (cs : List CheckIn) :
    ((dailyMoodsUnsorted cs).map Prod.fst).Perm
      ((cs.map (fun c => dayOf c.created_at)).dedup) := by
  have hkeys : (dailyMoodsUnsorted cs).map Prod.fst =
      (checkInsByDay cs).map Prod.fst := by
    unfold dailyMoodsUnsorted
    rw [List.map_map]
    rfl
  rw [hkeys]
  apply (List.perm_ext_iff_of_nodup (checkInsByDay_keys_nodup cs)
    (List.nodup_dedup _)).mpr
  intro d
  rw [List.mem_dedup, checkInsByDay_keys_mem]

/-- C6: the Daily Aggregator emits exactly one `(date, mood)` entry per
distinct calendar day of the input (`D` entries for `N` check-ins over `D`
days), each entry's mood being the mood of the first check-in of its day
in the newest-first input, and the output is sorted descending by date. -/
theorem daily_aggregation (checkIns : List CheckIn) :
    ((dailyMoods checkIns).map Prod.fst).Perm
      ((checkIns.map (fun c => dayOf c.created_at)).dedup) ∧
    (dailyMoods checkIns).length =
      ((checkIns.map (fun c => dayOf c.created_at)).dedup).length ∧
    List.Pairwise (fun a b : String × String => charListLe b.1.data a.1.data = true)
      (dailyMoods checkIns) ∧
    ∀ e ∈ dailyMoods checkIns,
      ∃ k, checkIns.find? (fun c => dayOf c.created_at == e.1) = some k ∧
        k.mood = e.2 := by
  have hperm0 : (dailyMoods checkIns).Perm (dailyMoodsUnsorted checkIns) :=
    List.perm_insertionSort _ _
  have hkeys : ((dailyMoods checkIns).map Prod.fst).Perm
      ((checkIns.map (fun c => dayOf c.created_at)).dedup) :=
    (hperm0.map Prod.fst).trans (dailyMoodsUnsorted_keys_perm checkIns)
  refine ⟨hkeys, ?_, ?_, ?_⟩
  · have hlen := hkeys.length_eq
    simpa using hlen
  · haveI : IsTotal (String × String)
        (fun a b : String × String => charListLe b.1.data a.1.data = true) :=
      ⟨fun a b => charListLe_total b.1.data a.1.data⟩
    haveI : IsTrans (String × String)
        (fun a b : String × String => charListLe b.1.data a.1.data = true) :=
      ⟨fun a b c hab hbc => charListLe_trans c.1.data b.1.data a.1.data hbc hab⟩
    exact List.sorted_insertionSort _ (dailyMoodsUnsorted checkIns)
  · intro e he
    exact mem_dailyMoodsUnsorted checkIns e (hperm0.mem_iff.mp he)

/-- Witness for C6: three check-ins over two days aggregate to two
entries, and the 2026-10-02 entry carries the mood of that day's first
(most recent) check-in. -/
theorem daily_aggregation_witness :
    (dailyMoods
        [{ id := "1", mood := "good", journal := none,
           created_at := "2026-10-02T10:00:00Z" },
         { id := "2", mood := "sad", journal := none,
           created_at := "2026-10-02T08:00:00Z" },
         { id := "3", mood := "okay", journal := none,
           created_at := "2026-10-01T09:00:00Z" }]).length =
      (([{ id := "1", mood := "good", journal := none,
           created_at := "2026-10-02T10:00:00Z" },
         { id := "2", mood := "sad", journal := none,
           created_at := "2026-10-02T08:00:00Z" },
         { id := "3", mood := "okay", journal := none,
           created_at := "2026-10-01T09:00:00Z" }] : List CheckIn).map
        (fun c => dayOf c.created_at)).dedup.length ∧
    (([{ id := "1", mood := "good", journal := none,
         created_at := "2026-10-02T10:00:00Z" },
       { id := "2", mood := "sad", journal := none,
         created_at := "2026-10-02T08:00:00Z" },
       { id := "3", mood := "okay", journal := none,
         created_at := "2026-10-01T09:00:00Z" }] : List CheckIn).map
      (fun c => dayOf c.created_at)).dedup.length = 2 ∧
    ∃ k, ([{ id := "1", mood := "good", journal := none,
             created_at := "2026-10-02T10:00:00Z" },
           { id := "2", mood := "sad", journal := none,
             created_at := "2026-10-02T08:00:00Z" },
           { id := "3", mood := "okay", journal := none,
             created_at := "2026-10-01T09:00:00Z" }] : List CheckIn).find?
        (fun c => dayOf c.created_at == "2026-10-02") = some k ∧
      k.mood = "good" := by
  have h := daily_aggregation
    [{ id := "1", mood := "good", journal := none,
       created_at := "2026-10-02T10:00:00Z" },
     { id := "2", mood := "sad", journal := none,
       created_at := "2026-10-02T08:00:00Z" },
     { id := "3", mood := "okay", journal := none,
       created_at := "2026-10-01T09:00:00Z" }]
  refine ⟨h.2.1, by decide, ?_⟩
  have hm := h.2.2.2 ("2026-10-02", "good") (by decide)
  exact hm
